import Mathlib

/-!
Verification of the ts_atbuilding_vents command dispatcher and controller.

A shallow embedding of the Python sources under
`python/lsst/ts/vent/controller/`: the pure decision logic of
`dispatcher.py` (tokenisation, argument coercion, the per-line
request/response cycle and the status-monitor loop) and of
`controller.py` (vent gate state, drive state, fan frequency and
manual-control mode) is translated into executable Lean definitions,
and the spec's claims about them are proved or refuted.

Conventions: Python floats are modelled as rationals, machine registers
as an address-indexed map of integers, exceptions as `Except`, and
hardware reads as explicit inputs.  Python local variables that may be
unbound (`NameError`) are modelled as `Option` values.
-/

namespace Vents

/-! ## Enumerations (from `lsst.ts.xml.enums.ATBuilding`) -/

/-- Vent gate state, as used by `Controller.vent_state`. -/
inductive VentGateState where
  | OPENED
  | PARTIALLY_OPEN
  | CLOSED
  | FAULT
deriving DecidableEq, Repr

/-- Fan drive state, as returned by `Controller.get_drive_state`. -/
inductive FanDriveState where
  | STOPPED
  | OPERATING
  | FAULT
deriving DecidableEq, Repr

/-! ## Python-style whitespace handling (`str.strip` / `str.split`)

`dispatcher.read_and_dispatch` does `data.strip()` and `data.split()`;
we model the whitespace characters Python recognises on the protocol's
ASCII payload. -/

/-- Python's whitespace test for `str.strip()` / `str.split()` (ASCII part). -/
def pyIsSpace (c : Char) : Bool :=
  c = ' ' || c = '\t' || c = '\n' || c = '\r' ||
    c = Char.ofNat 11 || c = Char.ofNat 12

/-- `str.strip()` on the underlying character list. -/
def stripChars (l : List Char) : List Char :=
  ((l.dropWhile pyIsSpace).reverse.dropWhile pyIsSpace).reverse

/-- `data.strip()`. -/
def pyStrip (s : String) : String :=
  ⟨stripChars s.toList⟩

/-- Helper for `str.split()`: accumulates the current token (reversed). -/
def splitWsAux : List Char → List Char → List (List Char)
  | [], acc => if acc = [] then [] else [acc.reverse]
  | c :: rest, acc =>
    if pyIsSpace c then
      if acc = [] then splitWsAux rest []
      else acc.reverse :: splitWsAux rest []
    else splitWsAux rest (c :: acc)

/-- `str.split()` with no separator: splits on runs of whitespace,
producing no empty tokens. -/
def pySplit (s : String) : List String :=
  (splitWsAux s.toList []).map fun l => ⟨l⟩

/-! ## Argument coercion (`cast_string_to_type`) -/

/-- Python `str.lower()` (ASCII part), characterwise. -/
def pyLower (s : String) : String :=
  ⟨s.toList.map Char.toLower⟩

/-- The parameter kinds appearing in the dispatch dictionary. -/
inductive PType where
  | int
  | float
  | bool
  | str
deriving DecidableEq, Repr

/-- A coerced argument value. -/
inductive Value where
  | vint (n : ℤ)
  | vfloat (q : ℚ)
  | vbool (b : Bool)
  | vstr (s : String)
deriving DecidableEq, Repr

/-- Digit run → value; `none` when empty or a non-digit appears.
(Model of the digit part of CPython's `int`/`float` literal parsing.) -/
def digitsVal : List Char → Option ℕ
  | [] => none
  | [c] => if c.isDigit then some (c.toNat - '0'.toNat) else none
  | c :: d :: rest =>
    if c.isDigit then
      match digitsVal (d :: rest) with
      | some r => some ((c.toNat - '0'.toNat) * 10 ^ (d :: rest).length + r)
      | none => none
    else none

/-- Python `int(value)` on a whitespace-free token: optional sign then
digits.  (Model of the CPython builtin consumed by
`cast_string_to_type`; underscore separators are not modelled.) -/
def parseInt (s : String) : Except String ℤ :=
  match s.toList with
  | '+' :: rest =>
    match digitsVal rest with
    | some n => .ok (n : ℤ)
    | none => .error ("invalid literal for int: " ++ s)
  | '-' :: rest =>
    match digitsVal rest with
    | some n => .ok (-(n : ℤ))
    | none => .error ("invalid literal for int: " ++ s)
  | rest =>
    match digitsVal rest with
    | some n => .ok (n : ℤ)
    | none => .error ("invalid literal for int: " ++ s)

/-- Unsigned decimal: `digits`, `digits.digits`, `.digits` or `digits.`,
as a rational.  `none` when malformed. -/
def parseDecimal : List Char → Option ℚ
  | l =>
    match l.splitOn '.' with
    | [whole] =>
      match digitsVal whole with
      | some n => some (n : ℚ)
      | none => none
    | [whole, frac] =>
      match whole, frac with
      | [], [] => none
      | [], f =>
        match digitsVal f with
        | some m => some ((m : ℚ) / ((10 : ℚ) ^ f.length))
        | none => none
      | w, [] =>
        match digitsVal w with
        | some n => some (n : ℚ)
        | none => none
      | w, f =>
        match digitsVal w, digitsVal f with
        | some n, some m => some ((n : ℚ) + (m : ℚ) / ((10 : ℚ) ^ f.length))
        | _, _ => none
    | _ => none

/-- Python `float(value)` on a whitespace-free token: optional sign and a
decimal literal with optional exponent.  (Model of the CPython builtin;
`inf`/`nan` tokens are not modelled, the embedding's floats being
rationals.) -/
def parseFloat (s : String) : Except String ℚ :=
  let failMsg := "could not convert string to float: " ++ s
  let signed : List Char → Option ℚ := fun l =>
    match l with
    | '+' :: rest => parseDecimal rest
    | '-' :: rest => (parseDecimal rest).map (fun q => -q)
    | rest => parseDecimal rest
  let expPart : List Char → Option ℤ := fun l =>
    match l with
    | '+' :: rest => (digitsVal rest).map (fun n => (n : ℤ))
    | '-' :: rest => (digitsVal rest).map (fun n => -(n : ℤ))
    | rest => (digitsVal rest).map (fun n => (n : ℤ))
  let chars := s.toList.map Char.toLower
  match chars.splitOn 'e' with
  | [mant] =>
    match signed mant with
    | some q => .ok q
    | none => .error failMsg
  | [mant, ex] =>
    match signed mant, expPart ex with
    | some q, some e => .ok (q * (10 : ℚ) ^ e)
    | _, _ => .error failMsg
  | _ => .error failMsg

/-- `cast_string_to_type` (dispatcher.py lines 35-69): booleans are a
special case recognising only `{true,t,1}` / `{false,f,0}`
case-insensitively; other kinds go through the builtin constructor. -/
def cast_string_to_type (new_type : PType) (value : String) : Except String Value :=
  match new_type with
  | .bool =>
    if pyLower value ∈ ["true", "t", "1"] then .ok (.vbool true)
    else if pyLower value ∈ ["false", "f", "0"] then .ok (.vbool false)
    else
      .error ("Expected bool value " ++
        "('true', 't', '1', 'false', 'f', '0')" ++ " but got {value}")
  | .int => (parseInt value).map .vint
  | .float => (parseFloat value).map .vfloat
  | .str => .ok (.vstr value)

/-- The list comprehension
`[cast_string_to_type(t, arg) for t, arg in zip(types, args)]`:
left-to-right, first failure raises. -/
def castZipped : List (PType × String) → Except String (List Value)
  | [] => .ok []
  | (t, a) :: rest => do
    let v ← cast_string_to_type t a
    let vs ← castZipped rest
    .ok (v :: vs)

/-- Coercion of an argument list against the declared kinds (via `zip`,
as in the source). -/
def castList (types : List PType) (args : List String) : Except String (List Value) :=
  castZipped (types.zip args)

/-! ## The dispatch dictionary and `read_and_dispatch` -/

/-- `Dispatcher.dispatch_dict` (dispatcher.py lines 89-99). -/
def dispatch_dict : List (String × List PType) :=
  [("close_vent_gate", [.int, .int, .int, .int]),
   ("open_vent_gate", [.int, .int, .int, .int]),
   ("get_fan_drive_max_frequency", []),
   ("reset_extraction_fan_drive", []),
   ("set_extraction_fan_drive_freq", [.float]),
   ("set_extraction_fan_manual_control_mode", [.bool]),
   ("start_extraction_fan", []),
   ("stop_extraction_fan", []),
   ("ping", [])]

/-- A response envelope (the JSON object written by `respond`), restricted
to the fields the claims are about. -/
structure Envelope where
  command : String
  error : ℤ
  exception_name : String
  message : String
deriving DecidableEq, Repr

/-- Outcome of awaiting a handler method: normal return or a raised
exception (name, message). -/
inductive HandlerOutcome where
  | success
  | raises (excName : String) (msg : String)

/-- `Dispatcher.read_and_dispatch` (dispatcher.py lines 118-194) as a pure
function of one input line.  Returns the envelopes written for that line
and the handler invocation made (`none` when no handler ran).  The
handler itself — the hardware-touching method — is a parameter. -/
def read_and_dispatch (handler : String → List Value → HandlerOutcome)
    (line : String) : List Envelope × Option (String × List Value) :=
  let data := pyStrip line
  if data = "" then ([], none)
  else
    match pySplit data with
    | [] => ([], none)
    | command :: args =>
      match dispatch_dict.lookup command with
      | none =>
        ([⟨command, 1, "NotImplementedError", "No such command"⟩], none)
      | some types =>
        if args.length ≠ types.length then
          ([⟨command, 1, "TypeError",
             "Error while handling command " ++ command ++ "."⟩], none)
        else
          match castList types args with
          | .error msg => ([⟨command, 1, "ValueError", msg⟩], none)
          | .ok vals =>
            match handler command vals with
            | .success => ([⟨command, 0, "", ""⟩], some (command, vals))
            | .raises en msg => ([⟨command, 1, en, msg⟩], some (command, vals))

/-- Whether an `Except` is a raised error. -/
def exceptIsError {ε α : Type} : Except ε α → Bool
  | .error _ => true
  | .ok _ => false

/-- A tokenised line whose shape the dispatcher rejects before any
handler call: unknown command, wrong arity, or a token failing
coercion. -/
def shapeError (command : String) (args : List String) : Bool :=
  match dispatch_dict.lookup command with
  | none => true
  | some types =>
    args.length ≠ types.length || exceptIsError (castList types args)

/-! ## Controller (controller.py)

Python exceptions raised by the controller are classified by name. -/

/-- Exception classes that the controller's methods can raise. -/
inductive PyError where
  | assertionError
  | valueError (msg : String)
deriving DecidableEq, Repr

/-- `Config` (config.py): the attributes the modelled methods consume. -/
structure Config where
  max_freq : ℚ
  megaind_bus : ℤ
  megaind_stack : ℤ
  sixteen_bus : ℤ
  sixteen_stack : ℤ
  vent_signal_ch : List ℤ
  vent_open_limit_ch : List ℤ
  vent_close_limit_ch : List ℤ
deriving Repr

/-- The default `Config` values (config.py lines 23-52). -/
def Config.default : Config where
  max_freq := 50
  megaind_bus := 1
  megaind_stack := 1
  sixteen_bus := 2
  sixteen_stack := 1
  vent_signal_ch := [4, -1, -1, -1]
  vent_open_limit_ch := [1, -1, -1, -1]
  vent_close_limit_ch := [2, -1, -1, -1]

/-- `Controller.vent_state` (controller.py lines 396-446).  `connected`
models `self.connected`; `read_channel` models the opto-input read
(bus, stack, channel ↦ level). -/
def vent_state (cfg : Config) (connected : Bool)
    (read_channel : ℤ → ℤ → ℤ → ℤ) (vent_number : ℤ) :
    Except PyError VentGateState :=
  if ¬connected then .error .assertionError
  else if ¬(0 ≤ vent_number ∧ vent_number ≤ 3) then
    .error (.valueError "Invalid vent_number should be between 0 and 3")
  else
    let n := vent_number.toNat
    if cfg.vent_open_limit_ch.getD n (-1) = -1 ∨
        cfg.vent_close_limit_ch.getD n (-1) = -1 then
      .error (.valueError "Vent vent_number is not configured.")
    else
      let op_state := read_channel cfg.sixteen_bus cfg.sixteen_stack
        (cfg.vent_open_limit_ch.getD n (-1))
      let cl_state := read_channel cfg.sixteen_bus cfg.sixteen_stack
        (cfg.vent_close_limit_ch.getD n (-1))
      if op_state = 1 ∧ cl_state = 0 then .ok .OPENED
      else if op_state = 0 ∧ cl_state = 0 then .ok .PARTIALLY_OPEN
      else if op_state = 0 ∧ cl_state = 1 then .ok .CLOSED
      else .ok .FAULT

/-- `Controller.get_drive_state` (controller.py lines 258-299): the fixed
lookup from the IPAE ("IPar Status") register value.

Modelled from the spec: the `vf_drive` register map defining
`IPAE_REGISTER`'s address is not among the sources (only the older
`vfd.py` is), so the modbus read of that register is modelled as
directly yielding the register's value `ipae`. -/
def get_drive_state (connected : Bool) (ipae : ℤ) :
    Except PyError FanDriveState :=
  if ¬connected then .error .assertionError
  else if ipae = 0 ∨ ipae = 1 ∨ ipae = 2 ∨ ipae = 3 ∨ ipae = 5 then
    .ok .STOPPED
  else if ipae = 4 then .ok .OPERATING
  else .ok .FAULT

/-! ## The variable-frequency-drive register file -/

/-- Register addresses, from `vfd.py` (`Registers`). -/
def CMD_REGISTER : ℤ := 8501

/-- The frequency-setpoint register written by `set_fan_frequency`. -/
def LFR_REGISTER : ℤ := 8502

/-- Modelled from the spec: `vf_drive.Registers.RFR_REGISTER`, read by
`get_fan_frequency`, is defined in the `vf_drive` module absent from the
sources.  Per the spec, a frequency read after
`set_extraction_fan_drive_freq` returns the commanded value, so the read
register is modelled as the commanded-frequency cell. -/
def RFR_REGISTER : ℤ := LFR_REGISTER

/-- `CFG_REGISTERS` (vfd.py): the five manual/auto configuration
registers, in write order (FR1, CHCF, CD1, RSF, SLL). -/
def CFG_REGISTERS : List ℤ := [8413, 8401, 8423, 7124, 7010]

/-- `MANUAL` settings for `CFG_REGISTERS` (vfd.py `VFD_MANUAL`). -/
def MANUAL : List ℤ := [1, 1, 1, 0, 1]

/-- `AUTO` settings for `CFG_REGISTERS` (vfd.py `VFD_AUTO`). -/
def AUTO : List ℤ := [164, 3, 10, 162, 0]

/-- The drive's holding registers, address-indexed. -/
def RegFile : Type := ℤ → ℤ

/-- One `write_register` call: the updated file and the (address, value)
trace entry. -/
def write_register (regs : RegFile) (address value : ℤ) : RegFile :=
  fun a => if a = address then value else regs a

/-- A sequence of `write_register` calls, in order. -/
def write_registers (regs : RegFile) : List (ℤ × ℤ) → RegFile
  | [] => regs
  | (a, v) :: rest => write_registers (write_register regs a v) rest

/-- The floor of a rational, computed by floor division of numerator by
denominator (kernel-executable). -/
def ratFloor (q : ℚ) : ℤ :=
  q.num.fdiv q.den

/-- Python's `round` on a rational: round half to even. -/
def pyRound (q : ℚ) : ℤ :=
  let n := ratFloor q
  if q - n < 1 / 2 then n
  else if 1 / 2 < q - n then n + 1
  else if n % 2 = 0 then n else n + 1

/-- `Controller.set_fan_frequency` (controller.py lines 204-237): range
check, then write CMD (0 when stopping, 1 otherwise) and LFR
(`round(frequency * 10)`), in the dict's insertion order.  Returns the
write trace alongside the updated registers. -/
def set_fan_frequency (cfg : Config) (connected : Bool) (regs : RegFile)
    (frequency : ℚ) : Except PyError (RegFile × List (ℤ × ℤ)) :=
  if ¬connected then .error .assertionError
  else if ¬(0 ≤ frequency ∧ frequency ≤ cfg.max_freq) then
    .error (.valueError "Frequency must be between 0 and max_freq")
  else
    let writes := [(CMD_REGISTER, if frequency = 0 then 0 else 1),
                   (LFR_REGISTER, pyRound (frequency * 10))]
    .ok (write_registers regs writes, writes)

/-- `Controller.get_fan_frequency` (controller.py lines 179-202): the RFR
register holds the frequency in units of 0.1 Hz. -/
def get_fan_frequency (connected : Bool) (regs : RegFile) :
    Except PyError ℚ :=
  if ¬connected then .error .assertionError
  else .ok ((regs RFR_REGISTER : ℚ) * (1 / 10))

/-- `Controller.fan_manual_control` (controller.py lines 118-147): assert
connected, set the fan frequency to zero, then write the five
configuration registers with the MANUAL or AUTO profile in
`zip(CFG_REGISTERS, settings)` order. -/
def fan_manual_control (cfg : Config) (connected : Bool) (regs : RegFile)
    (manual : Bool) : Except PyError (RegFile × List (ℤ × ℤ)) :=
  if ¬connected then .error .assertionError
  else
    match set_fan_frequency cfg connected regs 0 with
    | .error e => .error e
    | .ok (regs1, tr1) =>
      let settings := if manual then MANUAL else AUTO
      let cfgWrites := CFG_REGISTERS.zip settings
      .ok (write_registers regs1 cfgWrites, tr1 ++ cfgWrites)

/-! ## The status-monitor loop (`Dispatcher.monitor_status`)

One loop iteration ("tick") is modelled as a function of the tick's
hardware-read results.  Python locals that may still be unbound at their
first use (`new_last_fault`, `new_fan_drive_state`) are carried in the
state as `Option` values, `none` meaning unbound; comparing an unbound
local raises `NameError`. -/

/-- Result of one `controller.vent_state(i)` call inside the per-gate
`try`: a state, a `ValueError` (caught there), or another exception
(propagating to the tick's outer handler). -/
inductive GateRead where
  | ok (s : VentGateState)
  | valueError
  | otherExn
deriving DecidableEq, Repr

/-- Result of an awaited hardware read: a value or a raised exception. -/
inductive HwRead (α : Type) where
  | ok (a : α)
  | exn
deriving DecidableEq, Repr

/-- The hardware-read results available to one monitor tick. -/
structure TickInput where
  gates : List GateRead
  faults : HwRead ℤ
  driveState : HwRead FanDriveState
  freq : HwRead ℚ
  voltage : HwRead ℚ
deriving DecidableEq, Repr

/-- The monitor loop's mutable state across ticks: the session's
remembered values (initialised to Python `None`), the telemetry
countdown, and the possibly-unbound loop locals. -/
structure MonitorState where
  vent_state : Option (List VentGateState)
  last_fault : Option ℤ
  fan_drive_state : Option FanDriveState
  fan_frequency : Option ℚ
  drive_voltage : Option ℚ
  telemetry_count : ℤ
  new_last_fault : Option ℤ
  new_fan_drive_state : Option FanDriveState
deriving DecidableEq, Repr

/-- The monitor's state when `monitor_status` starts (dispatcher.py lines
104 and 246-251): every remembered value `None`, countdown 0, loop
locals unbound. -/
def monitorInit : MonitorState :=
  ⟨none, none, none, none, none, 0, none, none⟩

/-- `self.TELEMETRY_INTERVAL` (dispatcher.py line 105). -/
def TELEMETRY_INTERVAL : ℤ := 100

/-- An unsolicited message pushed by the monitor. -/
inductive MonitorMsg where
  | gateState (data : List VentGateState)
  | faultCode (data : ℤ)
  | driveState (data : FanDriveState)
  | telemetry (freq voltage : ℚ)
deriving DecidableEq, Repr

/-- Whether a monitor message is one of the three change events. -/
def MonitorMsg.isEvent : MonitorMsg → Bool
  | .telemetry _ _ => false
  | _ => true

/-- Whether a monitor message is a telemetry envelope. -/
def MonitorMsg.isTelemetry : MonitorMsg → Bool
  | .telemetry _ _ => true
  | _ => false

/-- An exception escaping the tick (crashing the `monitor_status` task):
a `NameError` from an unbound local, or an uncaught hardware exception. -/
inductive Crash where
  | nameError
  | uncaught
deriving DecidableEq, Repr

/-- The `for i in range(4)` gate loop (dispatcher.py lines 256-261) over
`new_vent_state`, initialised to four `CLOSED` entries: a successful
read stores the state, a `ValueError` is ignored, any other exception
aborts the whole `try` block (second component `true`). -/
def gateLoopAux : List GateRead → ℕ → List VentGateState →
    List VentGateState × Bool
  | [], _, cur => (cur, false)
  | r :: rest, i, cur =>
    match r with
    | .ok s => gateLoopAux rest (i + 1) (cur.set i s)
    | .valueError => gateLoopAux rest (i + 1) cur
    | .otherExn => (cur, true)

/-- The bindings produced by the tick's guarded batch of hardware reads. -/
structure BatchResult where
  new_vent_state : List VentGateState
  new_last_fault : Option ℤ
  new_fan_drive_state : Option FanDriveState
deriving DecidableEq, Repr

/-- The `try` block of dispatcher.py lines 254-271: gate loop, then
`last8faults`, then `get_drive_state`.  On an exception the bindings
made so far are kept and the rest retain their previous (possibly
unbound) values — the `except` clause only logs. -/
def readBatch (st : MonitorState) (inp : TickInput) : BatchResult :=
  let gl := gateLoopAux inp.gates 0 (List.replicate 4 .CLOSED)
  if gl.2 then ⟨gl.1, st.new_last_fault, st.new_fan_drive_state⟩
  else
    match inp.faults with
    | .exn => ⟨gl.1, st.new_last_fault, st.new_fan_drive_state⟩
    | .ok f =>
      match inp.driveState with
      | .exn => ⟨gl.1, some f, st.new_fan_drive_state⟩
      | .ok d => ⟨gl.1, some f, some d⟩

/-- One iteration of `Dispatcher.monitor_status`'s `while` loop
(dispatcher.py lines 253-359): guarded batch read, the three change
detections in fixed order, then the telemetry countdown and emission.
Returns the new state and the messages pushed, or the exception that
escaped the iteration. -/
def monitorTick (interval : ℤ) (st : MonitorState) (inp : TickInput) :
    Except Crash (MonitorState × List MonitorMsg) :=
  let b := readBatch st inp
  let gateDiff := st.vent_state ≠ some b.new_vent_state
  let msgs1 : List MonitorMsg :=
    if gateDiff then [.gateState b.new_vent_state] else []
  let vs' := if gateDiff then some b.new_vent_state else st.vent_state
  match b.new_last_fault with
  | none => .error .nameError
  | some nf =>
    let faultDiff := st.last_fault ≠ some nf
    let msgs2 : List MonitorMsg := if faultDiff then [.faultCode nf] else []
    let lf' := if faultDiff then some nf else st.last_fault
    match b.new_fan_drive_state with
    | none => .error .nameError
    | some nd =>
      let driveDiff := st.fan_drive_state ≠ some nd
      let msgs3 : List MonitorMsg :=
        if driveDiff then [.driveState nd] else []
      let fd' := if driveDiff then some nd else st.fan_drive_state
      let count1 := st.telemetry_count - 1
      match inp.freq with
      | .exn => .error .uncaught
      | .ok f =>
        match inp.voltage with
        | .exn => .error .uncaught
        | .ok v =>
          if count1 < 0 ∨ some f ≠ st.fan_frequency ∨
              some v ≠ st.drive_voltage then
            .ok (⟨vs', lf', fd', some f, some v, interval,
                  b.new_last_fault, b.new_fan_drive_state⟩,
                 msgs1 ++ msgs2 ++ msgs3 ++ [.telemetry f v])
          else
            .ok (⟨vs', lf', fd', st.fan_frequency, st.drive_voltage, count1,
                  b.new_last_fault, b.new_fan_drive_state⟩,
                 msgs1 ++ msgs2 ++ msgs3)

/-- A steady monitor snapshot, reachable 99 static ticks after a
telemetry emission with the default interval of 100: everything
remembered, countdown at 1. -/
def steadyState : MonitorState :=
  ⟨some (List.replicate 4 .CLOSED), some 0, some .STOPPED, some 0, some 0,
    1, some 0, some .STOPPED⟩

/-- A tick input whose reads all succeed with values matching
`steadyState` (nothing changed). -/
def steadyInput : TickInput :=
  ⟨List.replicate 4 (.ok .CLOSED), .ok 0, .ok .STOPPED, .ok 0, .ok 0⟩

/-! ## Helper lemmas on tokenisation -/

/-- `splitWsAux` never discards a nonempty pending token. -/
theorem splitWsAux_ne_nil (l : List Char) :
    ∀ acc, acc ≠ [] → splitWsAux l acc ≠ [] := by
  induction l with
  | nil =>
    intro acc h
    simp [splitWsAux, h]
  | cons c rest ih =>
    intro acc h
    by_cases hc : pyIsSpace c
    · simp [splitWsAux, hc, h]
    · simpa [splitWsAux, hc] using ih (c :: acc) (by simp)

/-- If what `dropWhile` leaves is all whitespace, it left nothing. -/
theorem dropWhile_all_space (l : List Char)
    (h : (l.dropWhile pyIsSpace).all pyIsSpace = true) :
    l.dropWhile pyIsSpace = [] := by
  induction l with
  | nil => rfl
  | cons c rest ih =>
    by_cases hc : pyIsSpace c
    · rw [List.dropWhile_cons_of_pos hc] at h ⊢
      exact ih h
    · rw [List.dropWhile_cons_of_neg hc] at h
      simp [List.all_cons] at h
      exact absurd h.1 hc

/-- A character list that `splitWsAux` tokenises to nothing is all
whitespace. -/
theorem splitWsAux_nil_all (l : List Char)
    (h : splitWsAux l [] = []) : l.all pyIsSpace = true := by
  induction l with
  | nil => rfl
  | cons c rest ih =>
    by_cases hc : pyIsSpace c
    · rw [List.all_cons, hc, Bool.true_and]
      exact ih (by simpa [splitWsAux, hc] using h)
    · exfalso
      refine splitWsAux_ne_nil rest [c] (by simp) ?_
      simpa [splitWsAux, hc] using h

/-- A nonempty stripped line tokenises to at least one token. -/
theorem pySplit_strip_ne_nil (s : String) (h : pyStrip s ≠ "") :
    pySplit (pyStrip s) ≠ [] := by
  intro hsplit
  apply h
  have htoks : splitWsAux (stripChars s.toList) [] = [] := by
    have : (splitWsAux (stripChars s.toList) []).map
        (fun l => (⟨l⟩ : String)) = [] := hsplit
    exact List.map_eq_nil_iff.mp this
  have hall : (stripChars s.toList).all pyIsSpace = true :=
    splitWsAux_nil_all _ htoks
  have hrev : ((s.toList.dropWhile pyIsSpace).reverse.dropWhile
      pyIsSpace).all pyIsSpace = true := by
    rw [List.all_eq_true] at hall ⊢
    intro x hx
    exact hall x (by simpa [stripChars, List.mem_reverse] using hx)
  have hnil := dropWhile_all_space _ hrev
  show pyStrip s = ""
  unfold pyStrip stripChars
  rw [hnil]
  rfl

/-- C1: for every line read by the dispatcher, `read_and_dispatch` sends
no response when the line is empty after stripping, and writes exactly
one response envelope (success or error) when it is non-empty — so each
non-empty line is answered before the next line is processed. -/
theorem read_and_dispatch_one_envelope_per_line
    (handler : String → List Value → HandlerOutcome) (line : String) :
    ((read_and_dispatch handler line).1).length =
      if pyStrip line = "" then 0 else 1 := by
  by_cases h : pyStrip line = ""
  · simp [read_and_dispatch, h]
  · rw [if_neg h]
    simp only [read_and_dispatch]
    rw [if_neg h]
    cases hm : pySplit (pyStrip line) with
    | nil => exact absurd hm (pySplit_strip_ne_nil line h)
    | cons command args =>
      cases hl : dispatch_dict.lookup command with
      | none => simp [hl]
      | some types =>
        by_cases ha : args.length = types.length
        · cases hc : castList types args with
          | error msg => simp [hl, ha, hc]
          | ok vals =>
            cases hh : handler command vals <;> simp [hl, ha, hc, hh]
        · simp [hl, ha]

/-- C4: a string token coerced to the boolean kind yields `true` exactly
for lowercase forms in {true, t, 1}, `false` exactly for {false, f, 0},
and raises a coercion error for every other token — there is no
fallback to a generic parse. -/
theorem cast_bool_token_classification (value : String) :
    (pyLower value ∈ ["true", "t", "1"] →
      cast_string_to_type .bool value = .ok (.vbool true)) ∧
    (pyLower value ∈ ["false", "f", "0"] →
      cast_string_to_type .bool value = .ok (.vbool false)) ∧
    (pyLower value ∉ ["true", "t", "1"] →
      pyLower value ∉ ["false", "f", "0"] →
      ∃ msg, cast_string_to_type .bool value = .error msg) := by
  refine ⟨fun h => ?_, fun h => ?_, fun h1 h2 => ?_⟩
  · simp [cast_string_to_type, h]
  · have h1 : pyLower value ∉ ["true", "t", "1"] := by
      simp only [List.mem_cons, List.not_mem_nil, or_false] at h ⊢
      rcases h with h | h | h <;> rw [h] <;> decide
    simp [cast_string_to_type, h1, h]
  · exact ⟨"Expected bool value " ++
      "('true', 't', '1', 'false', 'f', '0')" ++ " but got {value}",
      by simp [cast_string_to_type, h1, h2]⟩

/-- Witness for C4 at the concrete tokens "TRUE", "0" and "yes". -/
theorem cast_bool_token_classification_witness :
    cast_string_to_type .bool "TRUE" = .ok (.vbool true) ∧
    cast_string_to_type .bool "0" = .ok (.vbool false) ∧
    (∃ msg, cast_string_to_type .bool "yes" = .error msg) :=
  ⟨(cast_bool_token_classification "TRUE").1 (by decide),
   (cast_bool_token_classification "0").2.1 (by decide),
   (cast_bool_token_classification "yes").2.2 (by decide) (by decide)⟩

/-- C5: for a line whose command is unknown, whose argument count
mismatches the registry arity, or whose tokens fail coercion, the
dispatcher writes exactly one error envelope naming that command and
invokes no handler, so no hardware side effect occurs. -/
theorem malformed_line_error_no_handler
    (handler : String → List Value → HandlerOutcome) (line : String)
    (command : String) (args : List String)
    (h1 : pySplit (pyStrip line) = command :: args)
    (h2 : shapeError command args = true) :
    (read_and_dispatch handler line).2 = none ∧
    (read_and_dispatch handler line).1.map Envelope.command = [command] ∧
    (read_and_dispatch handler line).1.map Envelope.error = [1] := by
  have hne : ¬pyStrip line = "" := by
    intro he
    rw [he] at h1
    exact List.noConfusion h1
  simp only [read_and_dispatch]
  rw [if_neg hne, h1]
  unfold shapeError at h2
  cases hl : dispatch_dict.lookup command with
  | none => simp [hl]
  | some types =>
    rw [hl] at h2
    by_cases ha : args.length = types.length
    · have h2' : exceptIsError (castList types args) = true := by
        simpa [ha] using h2
      cases hc : castList types args with
      | error msg => simp [hl, ha, hc]
      | ok vals => rw [hc] at h2'; simp [exceptIsError] at h2'
    · simp [hl, ha]

/-- Witness for C5 at three concrete lines: an unknown command, a wrong
arity and a bad literal. -/
theorem malformed_line_error_no_handler_witness :
    ((read_and_dispatch (fun _ _ => .success) "bogus").2 = none ∧
      (read_and_dispatch (fun _ _ => .success) "bogus").1.map
        Envelope.command = ["bogus"] ∧
      (read_and_dispatch (fun _ _ => .success) "bogus").1.map
        Envelope.error = [1]) ∧
    ((read_and_dispatch (fun _ _ => .success) "ping extra").2 = none) ∧
    ((read_and_dispatch (fun _ _ => .success)
        "close_vent_gate 0.5 0 0 0").2 = none) :=
  ⟨malformed_line_error_no_handler _ "bogus" "bogus" [] (by decide) (by decide),
   (malformed_line_error_no_handler _ "ping extra" "ping" ["extra"]
     (by decide) (by decide)).1,
   (malformed_line_error_no_handler _ "close_vent_gate 0.5 0 0 0"
     "close_vent_gate" ["0.5", "0", "0", "0"] (by decide) (by decide)).1⟩

/-- C2: for a configured gate index in 0..3, `vent_state` maps the
(open-limit, close-limit) readings (1,0) to OPENED, (0,0) to
PARTIALLY_OPEN, (0,1) to CLOSED and (1,1) to FAULT. -/
theorem vent_state_limit_switch_table (cfg : Config) (conn : Bool)
    (r : ℤ → ℤ → ℤ → ℤ) (n : ℤ)
    (hconn : conn = true) (hlo : 0 ≤ n) (hhi : n ≤ 3)
    (hop : cfg.vent_open_limit_ch.getD n.toNat (-1) ≠ -1)
    (hcl : cfg.vent_close_limit_ch.getD n.toNat (-1) ≠ -1) :
    (r cfg.sixteen_bus cfg.sixteen_stack
        (cfg.vent_open_limit_ch.getD n.toNat (-1)) = 1 ∧
      r cfg.sixteen_bus cfg.sixteen_stack
        (cfg.vent_close_limit_ch.getD n.toNat (-1)) = 0 →
      vent_state cfg conn r n = .ok .OPENED) ∧
    (r cfg.sixteen_bus cfg.sixteen_stack
        (cfg.vent_open_limit_ch.getD n.toNat (-1)) = 0 ∧
      r cfg.sixteen_bus cfg.sixteen_stack
        (cfg.vent_close_limit_ch.getD n.toNat (-1)) = 0 →
      vent_state cfg conn r n = .ok .PARTIALLY_OPEN) ∧
    (r cfg.sixteen_bus cfg.sixteen_stack
        (cfg.vent_open_limit_ch.getD n.toNat (-1)) = 0 ∧
      r cfg.sixteen_bus cfg.sixteen_stack
        (cfg.vent_close_limit_ch.getD n.toNat (-1)) = 1 →
      vent_state cfg conn r n = .ok .CLOSED) ∧
    (r cfg.sixteen_bus cfg.sixteen_stack
        (cfg.vent_open_limit_ch.getD n.toNat (-1)) = 1 ∧
      r cfg.sixteen_bus cfg.sixteen_stack
        (cfg.vent_close_limit_ch.getD n.toNat (-1)) = 1 →
      vent_state cfg conn r n = .ok .FAULT) := by
  subst hconn
  refine ⟨fun h => ?_, fun h => ?_, fun h => ?_, fun h => ?_⟩ <;>
  · simp only [List.getD_eq_getElem?_getD] at hop hcl h
    simp [vent_state, hlo, hhi, hop, hcl, h.1, h.2]

/-- Witness for C2: the default configuration's gate 0, with concrete
channel readers realising each of the four limit-switch combinations. -/
theorem vent_state_limit_switch_table_witness :
    vent_state Config.default true (fun _ _ ch => if ch = 1 then 1 else 0) 0 =
      .ok .OPENED ∧
    vent_state Config.default true (fun _ _ _ => 0) 0 =
      .ok .PARTIALLY_OPEN ∧
    vent_state Config.default true (fun _ _ ch => if ch = 2 then 1 else 0) 0 =
      .ok .CLOSED ∧
    vent_state Config.default true (fun _ _ _ => 1) 0 = .ok .FAULT :=
  ⟨(vent_state_limit_switch_table Config.default true _ 0 rfl (by decide)
      (by decide) (by decide) (by decide)).1 (by decide),
   (vent_state_limit_switch_table Config.default true _ 0 rfl (by decide)
      (by decide) (by decide) (by decide)).2.1 (by decide),
   (vent_state_limit_switch_table Config.default true _ 0 rfl (by decide)
      (by decide) (by decide) (by decide)).2.2.1 (by decide),
   (vent_state_limit_switch_table Config.default true _ 0 rfl (by decide)
      (by decide) (by decide) (by decide)).2.2.2 (by decide)⟩

/-- C9: `get_drive_state` maps the status register value by the fixed
lookup — 0, 1, 2, 3 and 5 to STOPPED, 4 to OPERATING, everything else
to FAULT. -/
theorem get_drive_state_lookup (conn : Bool) (ipae : ℤ)
    (hconn : conn = true) :
    get_drive_state conn ipae = .ok
      (if ipae = 0 ∨ ipae = 1 ∨ ipae = 2 ∨ ipae = 3 ∨ ipae = 5 then
        .STOPPED
      else if ipae = 4 then .OPERATING
      else .FAULT) := by
  subst hconn
  simp only [get_drive_state]
  split_ifs <;> simp_all

/-- Witness for C9 at the register values 3, 4 and 6. -/
theorem get_drive_state_lookup_witness :
    get_drive_state true 3 = .ok .STOPPED ∧
    get_drive_state true 4 = .ok .OPERATING ∧
    get_drive_state true 6 = .ok .FAULT :=
  ⟨(get_drive_state_lookup true 3 rfl).trans (by rfl),
   (get_drive_state_lookup true 4 rfl).trans (by rfl),
   (get_drive_state_lookup true 6 rfl).trans (by rfl)⟩

/-- `ratFloor` of an integer is that integer. -/
theorem ratFloor_intCast (n : ℤ) : ratFloor (n : ℚ) = n := by
  simp [ratFloor, Rat.num_intCast, Rat.den_intCast, Int.fdiv_one]

/-- Python `round` of an integer-valued rational is that integer. -/
theorem pyRound_intCast (n : ℤ) : pyRound (n : ℚ) = n := by
  simp [pyRound, ratFloor_intCast]

/-- C8: `set_fan_frequency` raises a validation error (writing nothing)
for every frequency outside [0, configured max]; inside the range it
writes the drive registers so that a subsequent `get_fan_frequency`
returns `round(f * 10) * 0.1` — the set value up to rounding at 0.1 Hz
resolution. -/
theorem set_fan_frequency_range_and_readback (cfg : Config) (conn : Bool)
    (regs : RegFile) (f : ℚ) (hconn : conn = true) :
    (¬(0 ≤ f ∧ f ≤ cfg.max_freq) →
      ∃ msg, set_fan_frequency cfg conn regs f = .error (.valueError msg)) ∧
    (0 ≤ f ∧ f ≤ cfg.max_freq →
      ∃ regs' tr, set_fan_frequency cfg conn regs f = .ok (regs', tr) ∧
        get_fan_frequency conn regs' =
          .ok ((pyRound (f * 10) : ℚ) * (1 / 10))) := by
  subst hconn
  constructor
  · intro h
    exact ⟨"Frequency must be between 0 and max_freq",
      by simp [set_fan_frequency, h]⟩
  · intro h
    refine ⟨write_registers regs
        [(CMD_REGISTER, if f = 0 then 0 else 1),
         (LFR_REGISTER, pyRound (f * 10))],
      [(CMD_REGISTER, if f = 0 then 0 else 1),
       (LFR_REGISTER, pyRound (f * 10))], ?_, ?_⟩
    · simp [set_fan_frequency, h]
    · simp [get_fan_frequency, write_registers, write_register,
        RFR_REGISTER, LFR_REGISTER, CMD_REGISTER]

/-- Witness for C8: with the default configuration, setting 10.3 Hz reads
back as 10.3 Hz, and setting 60 Hz is rejected. -/
theorem set_fan_frequency_range_and_readback_witness :
    (∃ regs' tr,
      set_fan_frequency Config.default true (fun _ => 0) (103 / 10) =
        .ok (regs', tr) ∧
      get_fan_frequency true regs' =
        .ok ((pyRound ((103 / 10 : ℚ) * 10) : ℚ) * (1 / 10))) ∧
    (∃ msg, set_fan_frequency Config.default true (fun _ => 0) 60 =
      .error (.valueError msg)) :=
  ⟨(set_fan_frequency_range_and_readback Config.default true _ _ rfl).2
     (by norm_num [Config.default]),
   (set_fan_frequency_range_and_readback Config.default true _ _ rfl).1
     (by norm_num [Config.default])⟩

/-- C10: `fan_manual_control` (for either argument) first sets the fan
frequency to 0 — writing CMD := 0 and LFR := 0 — and only then writes
the five mode-configuration registers in their fixed order; afterwards
the commanded-frequency register holds 0, so the previously commanded
frequency is never left in effect. -/
theorem fan_manual_control_stops_fan_first (cfg : Config) (conn : Bool)
    (regs : RegFile) (manual : Bool) (hconn : conn = true)
    (hmax : 0 ≤ cfg.max_freq) :
    ∃ regs',
      fan_manual_control cfg conn regs manual =
        .ok (regs',
          [(CMD_REGISTER, 0), (LFR_REGISTER, 0)] ++
            CFG_REGISTERS.zip (if manual then MANUAL else AUTO)) ∧
      regs' LFR_REGISTER = 0 ∧ regs' CMD_REGISTER = 0 := by
  subst hconn
  have hset : set_fan_frequency cfg true regs 0 =
      .ok (write_registers regs [(CMD_REGISTER, 0), (LFR_REGISTER, 0)],
           [(CMD_REGISTER, 0), (LFR_REGISTER, 0)]) := by
    have hr : pyRound (0 : ℚ) = 0 := by
      simpa using pyRound_intCast 0
    simp [set_fan_frequency, hmax, hr]
  refine ⟨write_registers
      (write_registers regs [(CMD_REGISTER, 0), (LFR_REGISTER, 0)])
      (CFG_REGISTERS.zip (if manual then MANUAL else AUTO)), ?_, ?_, ?_⟩
  · simp [fan_manual_control, hset]
  · cases manual <;>
      norm_num [write_registers, write_register, CFG_REGISTERS, MANUAL,
        AUTO, LFR_REGISTER, CMD_REGISTER]
  · cases manual <;>
      norm_num [write_registers, write_register, CFG_REGISTERS, MANUAL,
        AUTO, LFR_REGISTER, CMD_REGISTER]

/-- Witness for C10 at both argument values over zeroed registers. -/
theorem fan_manual_control_stops_fan_first_witness :
    (∃ regs',
      fan_manual_control Config.default true (fun _ => 7) true =
        .ok (regs',
          [(CMD_REGISTER, 0), (LFR_REGISTER, 0)] ++
            CFG_REGISTERS.zip MANUAL) ∧
      regs' LFR_REGISTER = 0 ∧ regs' CMD_REGISTER = 0) ∧
    (∃ regs',
      fan_manual_control Config.default true (fun _ => 7) false =
        .ok (regs',
          [(CMD_REGISTER, 0), (LFR_REGISTER, 0)] ++
            CFG_REGISTERS.zip AUTO) ∧
      regs' LFR_REGISTER = 0 ∧ regs' CMD_REGISTER = 0) := by
  constructor
  · have h := fan_manual_control_stops_fan_first Config.default true
      (fun _ => 7) true rfl (by norm_num [Config.default])
    simpa using h
  · have h := fan_manual_control_stops_fan_first Config.default true
      (fun _ => 7) false rfl (by norm_num [Config.default])
    simpa using h

/-! ## Helper lemmas for the monitor loop -/

/-- The gate loop never aborts when no gate read raises a non-ValueError
exception. -/
theorem gateLoopAux_no_otherExn (l : List GateRead)
    (h : ∀ g ∈ l, g ≠ .otherExn) :
    ∀ i cur, (gateLoopAux l i cur).2 = false := by
  induction l with
  | nil => intro i cur; rfl
  | cons g rest ih =>
    intro i cur
    cases g with
    | ok s => exact ih (fun x hx => h x (by simp [hx])) (i + 1) (cur.set i s)
    | valueError => exact ih (fun x hx => h x (by simp [hx])) (i + 1) cur
    | otherExn => exact absurd rfl (h _ (by simp))

/-- When the whole batch of reads succeeds (gate reads at worst raising
`ValueError`), every loop local ends the batch bound to the fresh
reading. -/
theorem readBatch_ok (st : MonitorState) (inp : TickInput) (nf : ℤ)
    (nd : FanDriveState) (hg : ∀ g ∈ inp.gates, g ≠ .otherExn)
    (hf : inp.faults = .ok nf) (hd : inp.driveState = .ok nd) :
    readBatch st inp =
      ⟨(gateLoopAux inp.gates 0 (List.replicate 4 .CLOSED)).1,
        some nf, some nd⟩ := by
  have h2 : (gateLoopAux inp.gates 0
      [VentGateState.CLOSED, VentGateState.CLOSED, VentGateState.CLOSED,
        VentGateState.CLOSED]).2 = false :=
    gateLoopAux_no_otherExn inp.gates hg 0 (List.replicate 4 .CLOSED)
  simp [readBatch, h2, hf, hd]

/-- C7: in a monitor tick whose reads succeed, a change event is emitted
for the gate-state vector, the last fault code and the drive state only
when that item differs from the session's remembered value — never when
unchanged — and when several differ they are emitted in the fixed order
gate state, then fault code, then drive state. -/
theorem monitor_events_only_on_change_fixed_order
    (interval : ℤ) (st : MonitorState) (inp : TickInput)
    (nf : ℤ) (nd : FanDriveState) (f v : ℚ)
    (hg : ∀ g ∈ inp.gates, g ≠ .otherExn)
    (hf : inp.faults = .ok nf) (hd : inp.driveState = .ok nd)
    (hq : inp.freq = .ok f) (hv : inp.voltage = .ok v) :
    ∃ st' msgs, monitorTick interval st inp = .ok (st', msgs) ∧
      msgs.filter MonitorMsg.isEvent =
        (if st.vent_state ≠ some (gateLoopAux inp.gates 0
            (List.replicate 4 .CLOSED)).1 then
          [MonitorMsg.gateState (gateLoopAux inp.gates 0
            (List.replicate 4 .CLOSED)).1]
        else []) ++
        (if st.last_fault ≠ some nf then [MonitorMsg.faultCode nf]
        else []) ++
        (if st.fan_drive_state ≠ some nd then [MonitorMsg.driveState nd]
        else []) := by
  have hb := readBatch_ok st inp nf nd hg hf hd
  by_cases htel : st.telemetry_count - 1 < 0 ∨ some f ≠ st.fan_frequency ∨
      some v ≠ st.drive_voltage
  · simp only [monitorTick, hb, hq, hv, if_pos htel]
    refine ⟨_, _, rfl, ?_⟩
    simp only [List.filter_append]
    split_ifs <;> simp [MonitorMsg.isEvent]
  · simp only [monitorTick, hb, hq, hv, if_neg htel]
    refine ⟨_, _, rfl, ?_⟩
    simp only [List.filter_append]
    split_ifs <;> simp [MonitorMsg.isEvent]

/-- Witness for C7: a first tick (everything remembered as `None`) with
all reads succeeding emits all three events, in order. -/
theorem monitor_events_only_on_change_fixed_order_witness :
    ∃ st' msgs,
      monitorTick TELEMETRY_INTERVAL monitorInit steadyInput =
        .ok (st', msgs) ∧
      msgs.filter MonitorMsg.isEvent =
        (if monitorInit.vent_state ≠ some (gateLoopAux steadyInput.gates 0
            (List.replicate 4 .CLOSED)).1 then
          [MonitorMsg.gateState (gateLoopAux steadyInput.gates 0
            (List.replicate 4 .CLOSED)).1]
        else []) ++
        (if monitorInit.last_fault ≠ some 0 then [MonitorMsg.faultCode 0]
        else []) ++
        (if monitorInit.fan_drive_state ≠ some .STOPPED then
          [MonitorMsg.driveState .STOPPED]
        else []) :=
  monitor_events_only_on_change_fixed_order TELEMETRY_INTERVAL monitorInit
    steadyInput 0 .STOPPED 0 0 (by decide) rfl rfl rfl rfl

/-- C6 (amended): in a monitor tick whose reads succeed, the telemetry
envelope carrying both the fan frequency and the bus voltage is emitted
exactly when the decremented countdown is negative or either value
differs from the last emitted values; on emission the countdown is
reset to the configured interval, otherwise it keeps its decremented
value — so with static values telemetry recurs every interval + 1 ticks
and immediately when either value changes. -/
theorem monitor_telemetry_cadence
    (interval : ℤ) (st : MonitorState) (inp : TickInput)
    (nf : ℤ) (nd : FanDriveState) (f v : ℚ)
    (hg : ∀ g ∈ inp.gates, g ≠ .otherExn)
    (hf : inp.faults = .ok nf) (hd : inp.driveState = .ok nd)
    (hq : inp.freq = .ok f) (hv : inp.voltage = .ok v) :
    ∃ st' msgs, monitorTick interval st inp = .ok (st', msgs) ∧
      (MonitorMsg.telemetry f v ∈ msgs ↔
        (st.telemetry_count - 1 < 0 ∨ some f ≠ st.fan_frequency ∨
          some v ≠ st.drive_voltage)) ∧
      (st.telemetry_count - 1 < 0 ∨ some f ≠ st.fan_frequency ∨
          some v ≠ st.drive_voltage →
        st'.telemetry_count = interval) ∧
      (¬(st.telemetry_count - 1 < 0 ∨ some f ≠ st.fan_frequency ∨
          some v ≠ st.drive_voltage) →
        st'.telemetry_count = st.telemetry_count - 1) := by
  have hb := readBatch_ok st inp nf nd hg hf hd
  by_cases htel : st.telemetry_count - 1 < 0 ∨ some f ≠ st.fan_frequency ∨
      some v ≠ st.drive_voltage
  · simp only [monitorTick, hb, hq, hv, if_pos htel]
    refine ⟨_, _, rfl, ⟨fun _ => htel, fun _ => ?_⟩, fun _ => rfl,
      fun hn => absurd htel hn⟩
    simp
  · simp only [monitorTick, hb, hq, hv, if_neg htel]
    refine ⟨_, _, rfl, ?_, fun hc => absurd hc htel, fun _ => rfl⟩
    simp only [htel, iff_false, List.mem_append]
    intro hmem
    rcases hmem with (hmem | hmem) | hmem <;>
      [skip; skip; skip] <;>
      split_ifs at hmem <;> simp_all

/-- Witness for C6 at a first tick (countdown 0, nothing remembered):
the telemetry envelope is emitted and the countdown is reset to the
interval. -/
theorem monitor_telemetry_cadence_witness :
    ∃ st' msgs,
      monitorTick TELEMETRY_INTERVAL monitorInit steadyInput =
        .ok (st', msgs) ∧
      (MonitorMsg.telemetry 0 0 ∈ msgs ↔
        (monitorInit.telemetry_count - 1 < 0 ∨
          some (0 : ℚ) ≠ monitorInit.fan_frequency ∨
          some (0 : ℚ) ≠ monitorInit.drive_voltage)) ∧
      (monitorInit.telemetry_count - 1 < 0 ∨
          some (0 : ℚ) ≠ monitorInit.fan_frequency ∨
          some (0 : ℚ) ≠ monitorInit.drive_voltage →
        st'.telemetry_count = TELEMETRY_INTERVAL) ∧
      (¬(monitorInit.telemetry_count - 1 < 0 ∨
          some (0 : ℚ) ≠ monitorInit.fan_frequency ∨
          some (0 : ℚ) ≠ monitorInit.drive_voltage) →
        st'.telemetry_count = monitorInit.telemetry_count - 1) :=
  monitor_telemetry_cadence TELEMETRY_INTERVAL monitorInit steadyInput
    0 .STOPPED 0 0 (by decide) rfl rfl rfl rfl

/-- C6 counterexample: at the tick where the telemetry countdown reaches
zero (a full interval after the preceding emission) with both values
unchanged, the monitor emits nothing — the code only emits once the
decremented counter is negative, one tick later — refuting "emitted
exactly when the countdown reaches zero" and "at least once per
interval". -/
theorem monitor_no_telemetry_at_zero_countdown :
    steadyState.telemetry_count - 1 = 0 ∧
    monitorTick TELEMETRY_INTERVAL steadyState steadyInput =
      .ok ({steadyState with telemetry_count := 0}, []) :=
  ⟨rfl, rfl⟩

/-- C3: evaluating the monitor tick at its failing input — the first
tick after a connect, with the gate reads succeeding and the
`last8faults` read raising — shows the iteration escaping with a
`NameError` (the broad guard logs the hardware exception, but the
change-detection then reads the still-unbound `new_last_fault`), so the
monitor task crashes instead of skipping the tick. -/
theorem monitor_first_tick_fault_read_crash :
    monitorTick TELEMETRY_INTERVAL monitorInit
      ⟨[.ok .CLOSED, .ok .CLOSED, .ok .CLOSED, .ok .CLOSED], .exn,
        .ok .STOPPED, .ok 0, .ok 0⟩ = .error .nameError :=
  rfl

end Vents
